import Mathlib

/-!
Verification of the AlphaFlow trading platform risk and order layer.

The definitions below are shallow embeddings of the Python sources:
`backend/portfolio_risk.py`, `core/position_sizing.py`,
`backend/daily_risk_manager.py`, `backend/position_manager.py`,
`backend/strategy_executor.py`, `core/order_manager.py`,
`core/portfolio_manager.py` and `core/backtester.py`.
Python floats are modelled by rationals; Python dict entries that may be
absent or None are modelled by Option; logging is modelled by counters or
by the shape of the returned data.
-/

namespace AlphaFlow

/-! ## Portfolio risk manager (backend/portfolio_risk.py) -/

/-- Open-position record as consumed by PortfolioRiskManager (plain dicts in
the source): the current price falls back to the entry price when absent, and
the stop loss may be absent or None. -/
structure RiskPosition where
  symbol : String
  shares : ℚ
  entry_price : ℚ
  current_price : Option ℚ
  stop_loss : Option ℚ
  deriving DecidableEq

/-- Price used for a position: current price with entry price as fallback,
as in the calculate_portfolio_heat loop body. -/
def RiskPosition.priceUsed (p : RiskPosition) : ℚ :=
  p.current_price.getD p.entry_price

/-- Risk contributed by one position in calculate_portfolio_heat: the loop
skips a position whose stop loss is falsy (absent, None or zero), otherwise
it adds the absolute distance to the stop times the share count. -/
def RiskPosition.risk (p : RiskPosition) : ℚ :=
  match p.stop_loss with
  | none => 0
  | some s => if s = 0 then 0 else |p.priceUsed - s| * p.shares

/-- Running total of the calculate_portfolio_heat loop. -/
def total_risk (positions : List RiskPosition) : ℚ :=
  positions.foldl (fun acc p => acc + p.risk) 0

/-- PortfolioRiskManager.calculate_portfolio_heat: total risk divided by the
portfolio value, zero for a nonpositive portfolio value. -/
def calculate_portfolio_heat (positions : List RiskPosition)
    (portfolio_value : ℚ) : ℚ :=
  if portfolio_value > 0 then total_risk positions / portfolio_value else 0

/-- PortfolioRiskManager.check_portfolio_heat_limit: within the limit exactly
when the heat does not exceed max_portfolio_heat (default 25 percent). -/
def check_portfolio_heat_limit (max_portfolio_heat : ℚ)
    (positions : List RiskPosition) (portfolio_value : ℚ) : Bool × ℚ :=
  let h := calculate_portfolio_heat positions portfolio_value
  (decide (h ≤ max_portfolio_heat), h)

/-- PortfolioRiskManager.can_open_new_position: builds the hypothetical new
position, appends it to the existing ones and gates first on portfolio heat
and then on correlated exposure.  The correlation check downloads market data
at run time, so its verdict is the parameter corrOk. -/
def can_open_new_position (max_portfolio_heat : ℚ) (corrOk : Bool)
    (symbol : String) (position_value stop_loss_price entry_price : ℚ)
    (existing_positions : List RiskPosition) (portfolio_value : ℚ) : Bool :=
  let new_position : RiskPosition :=
    ⟨symbol, position_value / entry_price, entry_price,
      some entry_price, some stop_loss_price⟩
  let all_positions := existing_positions ++ [new_position]
  let r := check_portfolio_heat_limit max_portfolio_heat all_positions portfolio_value
  if !r.1 then false
  else if !corrOk then false
  else true

/-! ## Position sizing (core/position_sizing.py) -/

/-- Open-position dataclass of position_sizing.py: every field is present. -/
structure SizingPosition where
  shares : ℚ
  entry_price : ℚ
  current_price : ℚ
  stop_loss : ℚ
  take_profit : ℚ
  deriving DecidableEq

inductive HeatAction | stopTrading | reduceSize | normalTrading
  deriving DecidableEq

/-- PortfolioHeatManager.calculate_heat: risk of a position is the absolute
distance from entry to stop times shares; the action thresholds are the max
and warning heat percentages (defaults 6 and 4 percent). -/
def calculate_heat (max_heat_pct warning_heat_pct : ℚ)
    (open_positions : List SizingPosition) (portfolio_value : ℚ) :
    ℚ × HeatAction :=
  if open_positions.isEmpty then (0, .normalTrading)
  else
    let tot := open_positions.foldl
      (fun acc p => acc + |p.entry_price - p.stop_loss| * p.shares) 0
    let heat := if portfolio_value > 0 then tot / portfolio_value else 0
    if heat ≥ max_heat_pct then (heat, .stopTrading)
    else if heat ≥ warning_heat_pct then (heat, .reduceSize)
    else (heat, .normalTrading)

/-- PortfolioHeatManager.adjust_position_size: projects the heat after adding
the candidate risk, rejects at or above the max threshold and halves the size
at or above the warning threshold.  A zero portfolio value raises
ZeroDivisionError in the source, caught by the handler that returns the
proposed size unchanged. -/
def adjust_position_size (max_heat_pct warning_heat_pct : ℚ)
    (proposed_size current_heat portfolio_value new_position_risk : ℚ) : ℚ :=
  if portfolio_value = 0 then proposed_size
  else
    let new_heat := current_heat + new_position_risk / portfolio_value
    if new_heat ≥ max_heat_pct then 0
    else if new_heat ≥ warning_heat_pct then proposed_size / 2
    else proposed_size

/-- KellyCriterionCalculator.calculate_position_size: win rates outside
[0.4, 1.0] and nonpositive reward-to-risk ratios fall back to five percent of
the portfolio; otherwise the fractional Kelly value is clamped below by zero
and above by max_position before being applied to the portfolio value. -/
def kelly_position_size (fraction max_position : ℚ)
    (win_rate reward_risk_ratio portfolio_value : ℚ) : ℚ :=
  if win_rate < 2/5 ∨ win_rate > 1 then portfolio_value * (1/20)
  else if reward_risk_ratio ≤ 0 then portfolio_value * (1/20)
  else
    let p := win_rate
    let q := 1 - p
    let b := reward_risk_ratio
    let kelly_fraction := (b * p - q) / b
    let safe_kelly := min (max 0 (kelly_fraction * fraction)) max_position
    portfolio_value * safe_kelly

/-! ## Daily risk manager (backend/daily_risk_manager.py) -/

/-- State of DailyRiskManager.  Calendar days are numbered by naturals; the
halt reason string is dropped and halt_log_count counts how many times the
breach log line has been emitted, so that logging once per halt transition is
expressible. -/
structure DailyRiskState where
  max_daily_loss_percent : ℚ
  today : ℕ
  starting_portfolio_value : Option ℚ
  current_portfolio_value : Option ℚ
  daily_pnl : ℚ
  trading_halted : Bool
  halt_log_count : ℕ
  deriving DecidableEq

/-- Fresh DailyRiskManager as built by the constructor. -/
def DailyRiskState.init (maxLoss : ℚ) (day : ℕ) : DailyRiskState :=
  ⟨maxLoss, day, none, none, 0, false, 0⟩

/-- DailyRiskManager.reset_daily: clears the daily tracking when the calendar
day changed.  The log counter is external bookkeeping and is never cleared. -/
def reset_daily (day : ℕ) (s : DailyRiskState) : DailyRiskState :=
  if day ≠ s.today then
    { s with today := day, starting_portfolio_value := none,
             current_portfolio_value := none, daily_pnl := 0,
             trading_halted := false }
  else s

/-- DailyRiskManager.update_portfolio_value: auto-reset, record the starting
value on the first update of the day, recompute the daily profit and loss and
latch the halt flag on a breach, logging only on the transition.  Returns the
continue-trading flag together with the new state. -/
def update_portfolio_value (day : ℕ) (current_value : ℚ)
    (s0 : DailyRiskState) : Bool × DailyRiskState :=
  let s1 := reset_daily day s0
  let s2 := if s1.starting_portfolio_value = none
            then { s1 with starting_portfolio_value := some current_value }
            else s1
  let s3 := { s2 with current_portfolio_value := some current_value }
  match s3.starting_portfolio_value with
  | some sv =>
    if sv ≠ 0 then
      let pnl := current_value - sv
      let s4 := { s3 with daily_pnl := pnl }
      let pct := pnl / sv * 100
      if pct ≤ -(s4.max_daily_loss_percent * 100) then
        if s4.trading_halted then (false, s4)
        else (false, { s4 with trading_halted := true,
                               halt_log_count := s4.halt_log_count + 1 })
      else (true, s4)
    else (true, s3)
  | none => (true, s3)

/-- DailyRiskManager.can_trade: auto-reset, then report the halt flag. -/
def can_trade (day : ℕ) (s0 : DailyRiskState) : Bool × DailyRiskState :=
  let s := reset_daily day s0
  (!s.trading_halted, s)

/-- A sequence of portfolio-value updates processed on one calendar day. -/
def process_day (day : ℕ) (values : List ℚ) (s : DailyRiskState) :
    DailyRiskState :=
  values.foldl (fun st v => (update_portfolio_value day v st).2) s

/-! ## Position manager and strategy executor
(backend/position_manager.py and backend/strategy_executor.py) -/

/-- Position record of backend/position_manager.py: stop loss and take profit
are optional. -/
structure ExecPosition where
  shares : ℚ
  entry_price : ℚ
  stop_loss : Option ℚ
  take_profit : Option ℚ
  deriving DecidableEq

/-- PositionManager.check_stop_loss: a long stop fires at a price at or below
the stop level; a position without a stop never fires. -/
def check_stop_loss (current_price : ℚ) (p : ExecPosition) : Bool :=
  match p.stop_loss with
  | none => false
  | some sl => decide (current_price ≤ sl)

/-- PositionManager.check_take_profit: a long target fires at a price at or
above the take-profit level; a position without a target never fires. -/
def check_take_profit (current_price : ℚ) (p : ExecPosition) : Bool :=
  match p.take_profit with
  | none => false
  | some tp => decide (tp ≤ current_price)

inductive Signal | buy | sell | hold
  deriving DecidableEq

inductive TradeReason | fromSignal | stopLossHit | takeProfitHit
  deriving DecidableEq

inductive TickAction
  | buyAt (price : ℚ)
  | sellAt (reason : TradeReason) (price : ℚ)
  deriving DecidableEq

/-- True for the sell actions of a tick. -/
def TickAction.isSell : TickAction → Bool
  | .sellAt _ _ => true
  | .buyAt _ => false

/-- One iteration of the per-symbol body of StrategyExecutor._execute_strategy
for one strategy and symbol.  The generated signal is executed first (BUY only
without a position, SELL only with one, each at the current price), and only
then are stop loss and take profit checked on whatever position remains.
buyFill is the position the buy path would open (none when the engine is
absent or the risk gate rejects the entry); sellWorks is false exactly in
simulation mode, where _execute_sell returns without touching the position.
The returned action list is in execution order. -/
def process_symbol_tick (sellWorks : Bool) (buyFill : Option ExecPosition)
    (signal : Signal) (current_price : ℚ) (pos0 : Option ExecPosition) :
    List TickAction × Option ExecPosition :=
  let step1 : List TickAction × Option ExecPosition :=
    match signal, pos0 with
    | .buy, none =>
      match buyFill with
      | some p => ([.buyAt current_price], some p)
      | none => ([], none)
    | .sell, some p =>
      if sellWorks then ([.sellAt .fromSignal current_price], none)
      else ([], some p)
    | _, _ => ([], pos0)
  let step2 : List TickAction × Option ExecPosition :=
    match step1.2 with
    | some p =>
      if check_stop_loss current_price p then
        if sellWorks then ([.sellAt .stopLossHit current_price], none)
        else ([], some p)
      else if check_take_profit current_price p then
        if sellWorks then ([.sellAt .takeProfitHit current_price], none)
        else ([], some p)
      else ([], some p)
    | none => ([], none)
  (step1.1 ++ step2.1, step2.2)

/-! ## Order manager (core/order_manager.py) -/

inductive OrderType | market | limit | stop | stopLimit | trailingStop
  deriving DecidableEq

inductive OrderSide | buy | sell
  deriving DecidableEq

inductive OrderStatus
  | pending | submitted | partlyFilled | filled | canceled | rejected | expired
  deriving DecidableEq

inductive TradingMode | live | paper | backtest | analysis
  deriving DecidableEq

/-- Order record of core/order_manager.py.  The three timestamps are modelled
by Booleans that record whether they have been set. -/
structure Order where
  symbol : String
  side : OrderSide
  quantity : ℚ
  order_type : OrderType
  status : OrderStatus
  limit_price : Option ℚ
  stop_price : Option ℚ
  filled_quantity : ℚ
  filled_avg_price : Option ℚ
  order_id : Option ℕ
  submitted_at : Bool
  filled_at : Bool
  canceled_at : Bool
  deriving DecidableEq

/-- OrderManager.create_order: a limit order without a limit price and a stop
or stop-limit order without a stop price fail validation; every order that
passes is stored with status Pending. -/
def create_order (symbol : String) (side : OrderSide) (quantity : ℚ)
    (order_type : OrderType) (limit_price stop_price : Option ℚ) :
    Option Order :=
  if order_type = .limit ∧ limit_price = none then none
  else if (order_type = .stop ∨ order_type = .stopLimit) ∧ stop_price = none
  then none
  else some
    { symbol := symbol, side := side, quantity := quantity,
      order_type := order_type, status := .pending,
      limit_price := limit_price, stop_price := stop_price,
      filled_quantity := 0, filled_avg_price := none, order_id := none,
      submitted_at := false, filled_at := false, canceled_at := false }

/-- OrderManager._simulate_backtest_fill: a synchronous fill of the whole
quantity; the fill price is the limit price when truthy and the 100.0
placeholder otherwise. -/
def simulate_backtest_fill (o : Order) : Bool × Order :=
  let fill_price : ℚ :=
    match o.limit_price with
    | some l => if l = 0 then 100 else l
    | none => 100
  (true, { o with status := .filled, filled_quantity := o.quantity,
                  filled_avg_price := some fill_price,
                  submitted_at := true, filled_at := true })

/-- OrderManager.submit_order: refused in analysis mode, simulated in backtest
mode, otherwise sent to the broker.  The broker call is network interaction,
abstracted by apiReady (client initialised) and apiAccepts (call succeeds). -/
def submit_order (mode : TradingMode) (apiReady apiAccepts : Bool)
    (o : Order) : Bool × Order :=
  if mode = .analysis then (false, o)
  else if mode = .backtest then simulate_backtest_fill o
  else if !apiReady then (false, { o with status := .rejected })
  else if apiAccepts then
    (true, { o with status := .submitted, order_id := some 1,
                    submitted_at := true })
  else (false, { o with status := .rejected })

/-- OrderManager.cancel_order on an order found in the book: refused without
any change for a filled, canceled or rejected order; in backtest mode every
other order is marked canceled; in live and paper mode the cancellation goes
through the broker, abstracted by apiReady and apiAccepts. -/
def cancel_order (mode : TradingMode) (apiReady apiAccepts : Bool)
    (o : Order) : Bool × Order :=
  if o.status = .filled ∨ o.status = .canceled ∨ o.status = .rejected then
    (false, o)
  else if mode = .backtest then
    (true, { o with status := .canceled, canceled_at := true })
  else if apiReady ∧ o.order_id ≠ none then
    if apiAccepts then (true, { o with status := .canceled, canceled_at := true })
    else (false, o)
  else (false, o)

/-! ## Portfolio manager (core/portfolio_manager.py) -/

/-- The per-symbol slice of a PortfolioManager position that close_position
reads: an integer share count and the entry price. -/
structure PmPosition where
  quantity : ℤ
  entry_price : ℚ
  deriving DecidableEq

/-- Trade record produced by PortfolioManager.close_position. -/
structure TradeRecord where
  quantity : ℤ
  exit_price : ℚ
  pnl : ℚ
  deriving DecidableEq

/-- PortfolioManager.close_position on the position held for one symbol.
A requested quantity of none or 0 means the whole position (the Python
`quantity or position.quantity` idiom); the requested amount is then clamped
to the open quantity, the profit is proceeds minus cost basis, and the
position is removed when the clamped amount reaches the open quantity. -/
def close_position (pos : Option PmPosition) (price : ℚ)
    (quantity : Option ℤ) : Option TradeRecord × Option PmPosition :=
  match pos with
  | none => (none, none)
  | some p =>
    let cq0 : ℤ :=
      match quantity with
      | none => p.quantity
      | some q => if q = 0 then p.quantity else q
    let cq := min cq0 p.quantity
    let proceeds := (cq : ℚ) * price
    let cost_basis := (cq : ℚ) * p.entry_price
    let pnl := proceeds - cost_basis
    let trade : TradeRecord := ⟨cq, price, pnl⟩
    if p.quantity ≤ cq then (some trade, none)
    else (some trade, some { p with quantity := p.quantity - cq })

/-! ## Backtest engine (core/backtester.py) -/

/-- The slice of a BacktestEngine position that the stop and take-profit
handling of one bar reads. -/
structure BtPosition where
  quantity : ℤ
  entry_price : ℚ
  stop_loss : Option ℚ
  take_profit : Option ℚ
  deriving DecidableEq

inductive ExitReason | stopLossExit | takeProfitExit
  deriving DecidableEq

/-- Take-profit half of the per-bar exit check in
BacktestEngine._backtest_symbol: fires for a truthy target at or below the
bar price and books the exit at the target price. -/
def backtest_tp_check (p : BtPosition) (current_price : ℚ) :
    Option (ℚ × ExitReason) :=
  match p.take_profit with
  | some tp =>
    if tp ≠ 0 ∧ tp ≤ current_price then some (tp, .takeProfitExit) else none
  | none => none

/-- Stop and take-profit handling of one bar in
BacktestEngine._backtest_symbol: a truthy stop at or above the bar price wins
and books the exit at the stop price, otherwise the target is tried; either
way the booked exit price is the stop or target level, not the bar price. -/
def backtest_exit_check (p : BtPosition) (current_price : ℚ) :
    Option (ℚ × ExitReason) :=
  match p.stop_loss with
  | some sl =>
    if sl ≠ 0 ∧ current_price ≤ sl then some (sl, .stopLossExit)
    else backtest_tp_check p current_price
  | none => backtest_tp_check p current_price

/-! ## Heat formula of the specification, for the refinement claim -/

/-- Modelled from the specification wording of the heat formula: one position
contributes |current - stop| * shares when its stop loss is set and nonzero,
and zero otherwise. -/
def spec_position_risk (p : RiskPosition) : ℚ :=
  match p.stop_loss with
  | some s => if s ≠ 0 then |p.priceUsed - s| * p.shares else 0
  | none => 0

/-- Heat as the specification words it: the sum of the per-position risks
divided by the portfolio value. -/
def spec_heat (positions : List RiskPosition) (portfolio_value : ℚ) : ℚ :=
  (positions.map spec_position_risk).sum / portfolio_value

theorem foldl_add_risk (l : List RiskPosition) (a : ℚ) :
    l.foldl (fun acc p => acc + p.risk) a = a + (l.map RiskPosition.risk).sum := by
  induction l generalizing a with
  | nil => simp
  | cons p t ih => simp [ih, add_assoc]

theorem total_risk_eq_sum (l : List RiskPosition) :
    total_risk l = (l.map RiskPosition.risk).sum := by
  simpa using foldl_add_risk l 0

theorem risk_eq_spec (p : RiskPosition) : p.risk = spec_position_risk p := by
  unfold RiskPosition.risk spec_position_risk
  cases p.stop_loss with
  | none => rfl
  | some s => by_cases hs : s = 0 <;> simp [hs]

theorem total_risk_append_one (l : List RiskPosition) (p : RiskPosition) :
    total_risk (l ++ [p]) = total_risk l + p.risk := by
  simp [total_risk_eq_sum]

/-- C10: for a positive portfolio value, calculate_portfolio_heat equals the
sum of |current - stop| * shares over the positions whose stop loss is set
and nonzero, divided by the portfolio value; a position with stop loss None
or 0 contributes zero heat, so appending it never changes the heat. -/
theorem C10_heat_formula (positions : List RiskPosition) (pv : ℚ)
    (hpv : 0 < pv) :
    calculate_portfolio_heat positions pv = spec_heat positions pv ∧
    (∀ p : RiskPosition, p.stop_loss = none ∨ p.stop_loss = some 0 →
      calculate_portfolio_heat (positions ++ [p]) pv =
        calculate_portfolio_heat positions pv) := by
  have hfun : RiskPosition.risk = spec_position_risk := funext risk_eq_spec
  constructor
  · simp [calculate_portfolio_heat, spec_heat, hpv, total_risk_eq_sum, hfun]
  · intro p hp
    have hrisk : p.risk = 0 := by
      rcases hp with h | h <;> simp [RiskPosition.risk, h]
    simp [calculate_portfolio_heat, hpv, total_risk_append_one, hrisk]

theorem C10_witness :
    calculate_portfolio_heat [⟨"AAPL", 10, 100, some 100, some 95⟩] 1000 =
      spec_heat [⟨"AAPL", 10, 100, some 100, some 95⟩] 1000 :=
  (C10_heat_formula [⟨"AAPL", 10, 100, some 100, some 95⟩] 1000 (by decide)).1

/-- C1: with the default thresholds (max heat 6 percent, warning 4 percent),
adjust_position_size returns size zero whenever the projected heat including
the candidate reaches or exceeds the max threshold, halves the size when the
projected heat is at or above the warning threshold but below the max (and
the halved candidate again passes the max-heat check), and leaves the size
unchanged below the warning threshold; and can_open_new_position rejects any
candidate whose projected portfolio heat, candidate included, exceeds the
configured max portfolio heat, whatever the correlation verdict. -/
theorem adjust_position_size_eq (m w proposed ch pv risk : ℚ)
    (hpv : pv ≠ 0) :
    adjust_position_size m w proposed ch pv risk =
      if m ≤ ch + risk / pv then 0
      else if w ≤ ch + risk / pv then proposed / 2
      else proposed := by
  unfold adjust_position_size
  rw [if_neg hpv]

theorem C1_risk_gate (proposed ch pv risk maxLimit pvv slp ep : ℚ)
    (corrOk : Bool) (sym : String) (existing : List RiskPosition)
    (hpv : 0 < pv) (hep : ep ≠ 0) :
    (6/100 ≤ ch + risk / pv →
      adjust_position_size (6/100) (4/100) proposed ch pv risk = 0) ∧
    (4/100 ≤ ch + risk / pv → ch + risk / pv < 6/100 →
      adjust_position_size (6/100) (4/100) proposed ch pv risk = proposed / 2 ∧
      (0 ≤ risk → ch + (risk / 2) / pv < 6/100)) ∧
    (ch + risk / pv < 4/100 →
      adjust_position_size (6/100) (4/100) proposed ch pv risk = proposed) ∧
    (maxLimit <
        calculate_portfolio_heat
          (existing ++ [⟨sym, pvv / ep, ep, some ep, some slp⟩]) pv →
      can_open_new_position maxLimit corrOk sym pvv slp ep existing pv
        = false) := by
  have hpv0 : pv ≠ 0 := ne_of_gt hpv
  rw [adjust_position_size_eq (6/100) (4/100) proposed ch pv risk hpv0]
  refine ⟨?_, ?_, ?_, ?_⟩
  · intro h
    rw [if_pos h]
  · intro h1 h2
    constructor
    · rw [if_neg (by linarith), if_pos h1]
    · intro hr
      have hhalf : (risk / 2) / pv ≤ risk / pv :=
        (div_le_div_iff_of_pos_right hpv).mpr (by linarith)
      linarith
  · intro h
    rw [if_neg (by linarith), if_neg (by linarith)]
  · intro h
    have hle : ¬ (calculate_portfolio_heat
        (existing ++ [⟨sym, pvv / ep, ep, some ep, some slp⟩]) pv
          ≤ maxLimit) := not_le.mpr h
    simp [can_open_new_position, check_portfolio_heat_limit, hle]

theorem c1fact1 : (0:ℚ) < 100000 := by norm_num

theorem c1fact2 : (100:ℚ) ≠ 0 := by norm_num

theorem c1fact3 : (6:ℚ)/100 ≤ 3/100 + 4000/100000 := by norm_num

theorem C1_witness :
    adjust_position_size (6/100) (4/100) 1000 (3/100) 100000 4000 = 0 :=
  (C1_risk_gate 1000 (3/100) 100000 4000 (1/4) 1000 95 100 true "AAPL" []
    c1fact1 c1fact2).1 c1fact3

/-! ## Daily halt latch -/

theorem reset_daily_same (d : ℕ) (s : DailyRiskState) (hd : s.today = d) :
    reset_daily d s = s := by
  simp [reset_daily, hd]

theorem update_preserves_frame (d : ℕ) (v : ℚ) (s : DailyRiskState)
    (hd : s.today = d) :
    (update_portfolio_value d v s).2.today = d ∧
    (update_portfolio_value d v s).2.max_daily_loss_percent
      = s.max_daily_loss_percent := by
  unfold update_portfolio_value
  rw [reset_daily_same d s hd]
  cases hsv : s.starting_portfolio_value <;> simp [hsv] <;>
    split_ifs <;> simp_all

theorem update_halted_latch (d : ℕ) (v : ℚ) (s : DailyRiskState)
    (hd : s.today = d) (hh : s.trading_halted = true) :
    (update_portfolio_value d v s).2.trading_halted = true ∧
    (update_portfolio_value d v s).2.halt_log_count = s.halt_log_count := by
  unfold update_portfolio_value
  rw [reset_daily_same d s hd]
  cases hsv : s.starting_portfolio_value <;> simp [hsv] <;>
    split_ifs <;> simp_all

theorem process_day_latch (d : ℕ) (vs : List ℚ) :
    ∀ s : DailyRiskState, s.today = d → s.trading_halted = true →
      (process_day d vs s).today = d ∧
      (process_day d vs s).trading_halted = true := by
  induction vs with
  | nil => intro s hd hh; exact ⟨hd, hh⟩
  | cons v t ih =>
    intro s hd hh
    have hf := update_preserves_frame d v s hd
    have hl := update_halted_latch d v s hd hh
    simpa [process_day] using ih (update_portfolio_value d v s).2 hf.1 hl.1

/-- C2: on one calendar day, the daily-loss halt latches.  An already halted
state stays halted through any further value update, with no further breach
log and with can_trade reporting false; a breach (profit and loss over the
recorded starting value at or below the negative loss limit) halts trading,
returns the stop flag and, exactly on the false-to-true transition, bumps the
breach log count by one; an update that does not change the halt flag never
logs; and once halted the state stays halted, with can_trade false, through
any whole sequence of same-day updates, even ones that recover the value. -/
theorem C2_daily_halt_latch (d : ℕ) (v : ℚ) (s : DailyRiskState)
    (vs : List ℚ) (hd : s.today = d) :
    (s.trading_halted = true →
      (update_portfolio_value d v s).2.trading_halted = true ∧
      (update_portfolio_value d v s).2.halt_log_count = s.halt_log_count ∧
      (can_trade d s).1 = false) ∧
    (∀ sv : ℚ, s.starting_portfolio_value = some sv → 0 < sv →
      (v - sv) / sv ≤ -s.max_daily_loss_percent →
      (update_portfolio_value d v s).2.trading_halted = true ∧
      (update_portfolio_value d v s).1 = false ∧
      (s.trading_halted = false →
        (update_portfolio_value d v s).2.halt_log_count
          = s.halt_log_count + 1)) ∧
    ((update_portfolio_value d v s).2.trading_halted = s.trading_halted →
      (update_portfolio_value d v s).2.halt_log_count = s.halt_log_count) ∧
    (s.trading_halted = true →
      (process_day d vs s).trading_halted = true ∧
      (can_trade d (process_day d vs s)).1 = false) := by
  refine ⟨?_, ?_, ?_, ?_⟩
  · intro hh
    have hl := update_halted_latch d v s hd hh
    refine ⟨hl.1, hl.2, ?_⟩
    simp [can_trade, reset_daily_same d s hd, hh]
  · intro sv hsv hsvpos hbreach
    have hsv0 : sv ≠ 0 := ne_of_gt hsvpos
    have hpct : (v - sv) / sv * 100 ≤ -(s.max_daily_loss_percent * 100) := by
      nlinarith [hbreach]
    cases hh : s.trading_halted <;>
      simp [update_portfolio_value, reset_daily_same d s hd, hsv, hsv0,
        hpct, hh]
  · intro hsame
    revert hsame
    unfold update_portfolio_value
    rw [reset_daily_same d s hd]
    cases hsv : s.starting_portfolio_value <;> simp [hsv] <;>
      split_ifs <;> simp_all
  · intro hh
    have hp := process_day_latch d vs s hd hh
    refine ⟨hp.2, ?_⟩
    simp [can_trade, reset_daily_same d (process_day d vs s) hp.1, hp.2]

theorem c2fact1 : ((97:ℚ) - 100) / 100 ≤ -(2/100 : ℚ) := by norm_num

theorem C2_witness :
    (update_portfolio_value 0 97
      ⟨2/100, 0, some 100, some 100, 0, false, 0⟩).2.trading_halted = true :=
  ((C2_daily_halt_latch 0 97 ⟨2/100, 0, some 100, some 100, 0, false, 0⟩ []
    rfl).2.1 100 rfl (by norm_num) c2fact1).1

/-! ## Order life cycle -/

/-- C5 counterexample: an Expired order is not in the guard list of
cancel_order, so in backtest mode it is canceled with success instead of
being rejected with the order untouched: the call returns true and rewrites
the status, refuting the claim at this input. -/
theorem C5_counterexample :
    (cancel_order .backtest false false
      ⟨"AAPL", .sell, 1, .market, .expired, none, none, 0, none, none,
        false, false, false⟩).1 = true ∧
    (cancel_order .backtest false false
      ⟨"AAPL", .sell, 1, .market, .expired, none, none, 0, none, none,
        false, false, false⟩).2.status = .canceled ∧
    OrderStatus.canceled ≠ OrderStatus.expired := by
  refine ⟨rfl, rfl, by decide⟩

/-- C5 amended: cancel_order rejects, leaving the order unchanged, exactly
for the terminal statuses Filled, Canceled and Rejected; an Expired order is
not guarded, and in backtest mode it is transitioned to Canceled with
success. -/
theorem C5_cancel_terminal_guard (mode : TradingMode) (r a : Bool)
    (o : Order) :
    (o.status = .filled ∨ o.status = .canceled ∨ o.status = .rejected →
      cancel_order mode r a o = (false, o)) ∧
    (o.status = .expired →
      cancel_order .backtest r a o =
        (true, { o with status := .canceled, canceled_at := true })) := by
  constructor
  · intro h
    unfold cancel_order
    rw [if_pos h]
  · intro h
    unfold cancel_order
    rw [if_neg (by simp [h]), if_pos rfl]

theorem C5_witness :
    cancel_order .paper true true
      ⟨"AAPL", .sell, 1, .market, .filled, none, none, 1, some 100, some 1,
        true, true, false⟩ =
      (false,
        ⟨"AAPL", .sell, 1, .market, .filled, none, none, 1, some 100, some 1,
          true, true, false⟩) :=
  (C5_cancel_terminal_guard .paper true true
    ⟨"AAPL", .sell, 1, .market, .filled, none, none, 1, some 100, some 1,
      true, true, false⟩).1 (Or.inl rfl)

/-- C6 counterexample: a StopLimit order without a limit price and a
TrailingStop order without a stop price both pass create_order validation and
come out Pending, where the claim requires creation to fail for both. -/
theorem C6_counterexample :
    create_order "AAPL" .buy 1 .stopLimit none (some 5) ≠ none ∧
    create_order "AAPL" .buy 1 .trailingStop none none ≠ none ∧
    (create_order "AAPL" .buy 1 .stopLimit none (some 5)).map Order.status
      = some .pending := by
  refine ⟨by decide, by decide, rfl⟩

/-- C6 amended: creation fails validation exactly for a Limit order without a
limit price and for a Stop or StopLimit order without a stop price (so a
StopLimit order without a limit price and a TrailingStop order without a stop
price pass); every order that passes validation is produced in the Pending
status. -/
theorem C6_creation_validation (symbol : String) (side : OrderSide) (q : ℚ)
    (t : OrderType) (lp sp : Option ℚ) :
    (create_order symbol side q t lp sp = none ↔
      (t = .limit ∧ lp = none) ∨
      ((t = .stop ∨ t = .stopLimit) ∧ sp = none)) ∧
    (∀ o, create_order symbol side q t lp sp = some o →
      o.status = .pending) := by
  constructor
  · unfold create_order
    split_ifs with h1 h2
    · simp [h1]
    · simp [h2]
    · simp [h1, h2]
  · intro o
    unfold create_order
    split_ifs with h1 h2
    · intro h; cases h
    · intro h; cases h
    · intro h
      simp only [Option.some.injEq] at h
      subst h
      rfl

theorem C6_witness :
    (create_order "AAPL" .buy 1 .limit none none = none) = True :=
  eq_true ((C6_creation_validation "AAPL" .buy 1 .limit none none).1.mpr
    (Or.inl ⟨rfl, rfl⟩))

/-- C9 counterexample: the simulated backtest fill prices a market order at
the fixed placeholder 100.0 whatever the market data say, so for a bar whose
close is 50 the claimed fill at the bar close is refuted at this input. -/
theorem C9_counterexample :
    (submit_order .backtest false false
      ⟨"AAPL", .buy, 5, .market, .pending, none, none, 0, none, none,
        false, false, false⟩).2.filled_avg_price = some 100 ∧
    (100:ℚ) ≠ 50 := by
  refine ⟨rfl, by decide⟩

/-- C9 amended: in backtest mode submit_order collapses submit and fill into
one synchronous transition: it reports success, marks the order Filled with
the whole quantity filled, and prices the fill at the limit price when that
is set and nonzero and at the fixed placeholder 100.0 otherwise (not at a bar
close, which the fill routine never sees); the result does not depend on the
broker connection at all. -/
theorem C9_backtest_fill (a b a2 b2 : Bool) (o : Order) :
    (submit_order .backtest a b o).1 = true ∧
    (submit_order .backtest a b o).2.status = .filled ∧
    (submit_order .backtest a b o).2.filled_quantity = o.quantity ∧
    (o.limit_price = none →
      (submit_order .backtest a b o).2.filled_avg_price = some 100) ∧
    (∀ l, o.limit_price = some l → l ≠ 0 →
      (submit_order .backtest a b o).2.filled_avg_price = some l) ∧
    submit_order .backtest a b o = submit_order .backtest a2 b2 o := by
  unfold submit_order simulate_backtest_fill
  refine ⟨by simp, by simp, by simp, ?_, ?_, by simp⟩
  · intro h
    simp [h]
  · intro l hl h0
    simp [hl, h0]

theorem C9_witness :
    (submit_order .backtest true false
      ⟨"AAPL", .sell, 3, .limit, .pending, some 42, none, 0, none, none,
        false, false, false⟩).2.filled_avg_price = some 42 :=
  (C9_backtest_fill true false true false
    ⟨"AAPL", .sell, 3, .limit, .pending, some 42, none, 0, none, none,
      false, false, false⟩).2.2.2.2.1 42 rfl (by decide)

/-! ## Position closing -/

/-- C7 counterexample: closing 15 shares of a 10-share position does not
fail: the request is clamped to 10, the trade is booked with profit
10 * 105 - 10 * 100 = 50 and the position is removed, refuting the claim that
an oversized close request fails. -/
theorem C7_counterexample :
    close_position (some ⟨10, 100⟩) 105 (some 15) =
      (some ⟨10, 105, 50⟩, none) ∧ (10:ℤ) < 15 := by
  constructor
  · norm_num [close_position, min_def]
  · decide

/-- C7 amended: closing never leaves a negative open quantity; the realized
profit of every booked trade is (exit - entry) times the closed quantity; a
request for at least the open quantity, the oversized case included, is
clamped to the open quantity, succeeds and removes the position; and a close
without an open position fails with no trade. -/
theorem C7_close_semantics (p : PmPosition) (price : ℚ) (q : ℤ)
    (hq : 0 ≤ p.quantity) :
    (∀ p2, (close_position (some p) price (some q)).2 = some p2 →
      0 ≤ p2.quantity) ∧
    (∀ t, (close_position (some p) price (some q)).1 = some t →
      t.pnl = (price - p.entry_price) * (t.quantity : ℚ)) ∧
    (p.quantity ≤ q → q ≠ 0 →
      close_position (some p) price (some q) =
        (some ⟨p.quantity, price,
          (p.quantity : ℚ) * price - (p.quantity : ℚ) * p.entry_price⟩,
          none)) ∧
    (∀ r, close_position none price r = (none, none)) := by
  refine ⟨?_, ?_, ?_, fun r => rfl⟩
  · simp only [close_position]
    split_ifs <;> simp <;> omega
  · simp only [close_position]
    split_ifs <;> simp <;> ring
  · intro hle hq0
    have hmin : min (if q = 0 then p.quantity else q) p.quantity
        = p.quantity := by
      rw [if_neg hq0]
      exact min_eq_right hle
    simp only [close_position, hmin]
    rw [if_pos le_rfl]

theorem C7_witness :
    close_position none 105 (some 1) = (none, none) :=
  (C7_close_semantics ⟨10, 100⟩ 105 15 (by decide)).2.2.2 (some 1)

/-! ## Kelly sizing -/

/-- C8 counterexample: a win rate of 0.3 is below the 0.4 floor, yet the
sizer does not return size zero: it falls back to five percent of the
portfolio, 50 dollars on a 1000-dollar portfolio, refuting the claimed
rejection with size zero at this input. -/
theorem C8_counterexample :
    kelly_position_size (1/2) (1/4) (3/10) 2 1000 = 50 ∧ (50:ℚ) ≠ 0 := by
  constructor
  · unfold kelly_position_size
    rw [if_pos (Or.inl (by norm_num))]
    norm_num
  · norm_num

/-- C8 amended: for a win rate in [0.4, 1.0] and a positive reward-to-risk
ratio the applied fraction is clamped to [0, max_position], so the returned
dollar size lies between zero and max_position times the portfolio value;
for a win rate below 0.4 or a nonpositive ratio the sizer falls back to the
conservative five percent allocation (portfolio value times 1/20), not to
size zero. -/
theorem C8_kelly_bounds (f m win b pv : ℚ) (hm : 0 ≤ m) (hpv : 0 ≤ pv) :
    (2/5 ≤ win → win ≤ 1 → 0 < b →
      0 ≤ kelly_position_size f m win b pv ∧
      kelly_position_size f m win b pv ≤ m * pv) ∧
    ((win < 2/5 ∨ b ≤ 0) → kelly_position_size f m win b pv
      = pv * (1/20)) := by
  constructor
  · intro h1 h2 h3
    unfold kelly_position_size
    rw [if_neg (by push_neg; exact ⟨h1, h2⟩), if_neg (not_le.mpr h3)]
    constructor
    · exact mul_nonneg hpv (le_min (le_max_left 0 _) hm)
    · calc pv * min (max 0 ((b * win - (1 - win)) / b * f)) m
          ≤ pv * m := mul_le_mul_of_nonneg_left (min_le_right _ _) hpv
        _ = m * pv := mul_comm _ _
  · intro h
    rcases h with h | h
    · unfold kelly_position_size
      rw [if_pos (Or.inl h)]
    · unfold kelly_position_size
      by_cases hw : win < 2/5 ∨ win > 1
      · rw [if_pos hw]
      · rw [if_neg hw, if_pos h]

theorem c8fact1 : (0:ℚ) ≤ 1/4 := by norm_num

theorem c8fact2 : (2:ℚ)/5 ≤ 1/2 := by norm_num

theorem c8fact3 : (1:ℚ)/2 ≤ 1 := by norm_num

theorem C8_witness :
    0 ≤ kelly_position_size (1/2) (1/4) (1/2) 2 1000 ∧
    kelly_position_size (1/2) (1/4) (1/2) 2 1000 ≤ (1/4) * 1000 :=
  (C8_kelly_bounds (1/2) (1/4) (1/2) 2 1000 c8fact1 (by decide)).1
    c8fact2 c8fact3 (by decide)

/-! ## Tick ordering in the strategy executor -/

/-- C3 counterexample: with an existing position whose stop (95) is hit at
price 94 and a SELL signal in the same tick, the executed action is the
signal-driven sell, not a stop-loss exit: signal evaluation came first, so
the claimed stop-before-signal ordering is refuted at this input. -/
theorem C3_counterexample :
    check_stop_loss 94 ⟨10, 100, some 95, none⟩ = true ∧
    process_symbol_tick true none .sell 94 (some ⟨10, 100, some 95, none⟩) =
      ([TickAction.sellAt .fromSignal 94], none) ∧
    TradeReason.fromSignal ≠ TradeReason.stopLossHit := by
  refine ⟨by decide, rfl, by decide⟩

/-- C3 amended: within one tick for a symbol with an existing position, the
new-signal evaluation happens before the stop/take-profit evaluation; a
signal SELL closes the position first and the stop check is then skipped on
the emptied slot, so at most one sell is ever executed per (strategy, symbol)
pair per tick and a triggered exit is never overwritten; a non-SELL signal
leaves the position for the stop check, which closes at the current price. -/
theorem C3_tick_order (sellWorks : Bool) (buyFill : Option ExecPosition)
    (signal : Signal) (price : ℚ) (p : ExecPosition) :
    ((process_symbol_tick sellWorks buyFill signal price (some p)).1.countP
        TickAction.isSell ≤ 1) ∧
    (signal = .sell → sellWorks = true →
      process_symbol_tick sellWorks buyFill signal price (some p) =
        ([.sellAt .fromSignal price], none)) ∧
    (signal ≠ .sell → sellWorks = true → check_stop_loss price p = true →
      process_symbol_tick sellWorks buyFill signal price (some p) =
        ([.sellAt .stopLossHit price], none)) := by
  refine ⟨?_, ?_, ?_⟩
  · cases signal <;> simp [process_symbol_tick] <;> split_ifs <;>
      simp [TickAction.isSell, List.countP_cons, List.countP_nil]
  · intro hs hw
    subst hs
    subst hw
    rfl
  · intro hs hw hstop
    subst hw
    cases signal <;>
      simp [process_symbol_tick, hstop] at hs ⊢

/-- Closed instantiation of the amended tick-ordering theorem: a HOLD signal
with the stop hit yields exactly the stop-loss exit. -/
theorem C3_witness :
    process_symbol_tick true none .hold 94 (some ⟨10, 100, some 95, none⟩) =
      ([TickAction.sellAt .stopLossHit 94], none) :=
  (C3_tick_order true none .hold 94 ⟨10, 100, some 95, none⟩).2.2
    (by decide) rfl (by decide)

/-! ## Stop semantics and exit prices -/

/-- C4 counterexample: the stop check does report a hit at price 94 against a
stop of 95, but the executor then sells at the current price 94, not at the
stop price 95, refuting the claimed close at the stop price at this input. -/
theorem C4_counterexample :
    check_stop_loss 94 ⟨10, 100, some 95, none⟩ = true ∧
    process_symbol_tick true none .hold 94 (some ⟨10, 100, some 95, none⟩) =
      ([TickAction.sellAt .stopLossHit 94], none) ∧
    (94:ℚ) ≠ 95 := by
  refine ⟨by decide, rfl, by decide⟩

/-- C4 amended: the stop check reports a hit exactly when the current price
is at or below the stop, and the target check exactly when the current price
is at or above the take profit; when the stop fires the strategy executor
closes at the current price of the bar (not at the stop price), while the
backtest engine books the exit of a triggered stop at the stop price. -/
theorem C4_stop_semantics (price : ℚ) (p : ExecPosition) (bp : BtPosition) :
    (check_stop_loss price p = true ↔
      ∃ sl, p.stop_loss = some sl ∧ price ≤ sl) ∧
    (check_take_profit price p = true ↔
      ∃ tp, p.take_profit = some tp ∧ tp ≤ price) ∧
    (check_stop_loss price p = true →
      process_symbol_tick true none .hold price (some p) =
        ([.sellAt .stopLossHit price], none)) ∧
    (∀ sl, bp.stop_loss = some sl → sl ≠ 0 → price ≤ sl →
      backtest_exit_check bp price = some (sl, .stopLossExit)) := by
  refine ⟨?_, ?_, ?_, ?_⟩
  · unfold check_stop_loss
    cases hsl : p.stop_loss <;> simp [hsl]
  · unfold check_take_profit
    cases htp : p.take_profit <;> simp [htp]
  · intro h
    simp [process_symbol_tick, h]
  · intro sl hsl h0 hle
    unfold backtest_exit_check
    rw [hsl]
    simp [h0, hle]

theorem C4_witness :
    check_stop_loss 94 ⟨10, 100, some 95, none⟩ = true ∧
    backtest_exit_check ⟨10, 100, some 95, none⟩ 94 =
      some (95, .stopLossExit) :=
  ⟨(C4_stop_semantics 94 ⟨10, 100, some 95, none⟩
      ⟨10, 100, some 95, none⟩).1.mpr ⟨95, rfl, by decide⟩,
   (C4_stop_semantics 94 ⟨10, 100, some 95, none⟩
      ⟨10, 100, some 95, none⟩).2.2.2 95 rfl (by decide) (by decide)⟩

end AlphaFlow
